import Mathlib

/-!
# ninja-chat: bootstrap, logger and debug server

A shallow embedding of the five Go source files of the chat-service scaffold

* `cmd/chat-service/main.go`        (`run`)
* `internal/config/parse.go`        (`ParseAndValidate`)
* `internal/logger/logger.go`       (`Init`, `MustInit`, `Sync`, `GetAtomicLevel`)
* `internal/server-debug/index.go`  (`indexPage`, `addPage`, `handler`)
* `internal/server-debug/server.go` (`New`, `Server.Run`)

Package-level variables and side effects are threaded through an explicit
`World`; library calls whose answers depend on the outside world (file system,
validator, listener, shutdown) are parameters of the functions that make them.
-/

namespace NinjaChat

/-! ## Go error values -/

/-- Go `error` values, as far as the program builds and inspects them.
`sentinel` is a package-level error variable, identified by its qualified name
(`context.Canceled`, `http.ErrServerClosed`, ...); `plain` is an error without
`Unwrap` (what `errors.New` and `fmt.Errorf` with `%v` build); `wrap` is an
error with an `Unwrap` method (what `fmt.Errorf` with `%w` builds, and what
library wrappers such as `*fs.PathError` are). A nil `error` is `none` of
`Option GoError`. -/
inductive GoError where
  | sentinel (name : String) (text : String)
  | plain (text : String)
  | wrap (text : String) (inner : GoError)
  deriving DecidableEq, Repr

namespace GoError

/-- The `Error()` method: the message of an error. -/
def Error : GoError → String
  | sentinel _ text => text
  | plain text => text
  | wrap text _ => text

/-- The `Unwrap()` method, for the errors that have one: the error inside. -/
def Unwrap : GoError → Option GoError
  | wrap _ inner => some inner
  | _ => none

end GoError

/-- The `fmt.Errorf(format ++ "%v", err)` calls of the sources: the message is
the given text followed by the message of `err`, and the result does not wrap
`err`. -/
def Errorf_v (text : String) (err : GoError) : GoError :=
  GoError.plain (text ++ err.Error)

/-- The `fmt.Errorf(format ++ "%w", err)` call of `serverdebug.New`: same
message as with `%v`, and the result unwraps to `err`. -/
def Errorf_w (text : String) (err : GoError) : GoError :=
  GoError.wrap (text ++ err.Error) err

/-- The `errors.Is(err, target)` test for a non-nil `err` and a sentinel
`target`: walk the `Unwrap` chain of `err` and compare every link with
`target`. Go compares by identity, and identity is known for sentinels only:
a link is the target when it is that very sentinel; an error built at run
time (`plain` or `wrap`) is a value of its own and is no sentinel, so the walk
passes it by. The targets of this program are the sentinels
`context.Canceled`, `http.ErrServerClosed` and `syscall.ENOTTY`, and no error
in a chain answers for them through an `Is` method of its own. -/
def errorsIs : GoError → GoError → Bool
  | GoError.sentinel name text, target => GoError.sentinel name text == target
  | GoError.plain _, _ => false
  | GoError.wrap _ inner, target => errorsIs inner target

/-- The sentinel `context.Canceled`. -/
def contextCanceled : GoError := GoError.sentinel "context.Canceled" "context canceled"

/-- The sentinel `context.DeadlineExceeded`. -/
def contextDeadlineExceeded : GoError :=
  GoError.sentinel "context.DeadlineExceeded" "context deadline exceeded"

/-- The sentinel `http.ErrServerClosed`. -/
def ErrServerClosed : GoError := GoError.sentinel "http.ErrServerClosed" "http: Server closed"

/-- The errno `syscall.ENOTTY`. -/
def ENOTTY : GoError := GoError.sentinel "syscall.ENOTTY" "inappropriate ioctl for device"

/-! ## Library functions the program calls -/

/-- Pure library functions whose exact tables are not part of this program.
Every theorem below holds for all choices of them. -/
structure Externals where
  /-- The `%q` verb of `fmt` (`strconv.Quote`). -/
  quote : String → String
  /-- The function `bytes.ToLower`. -/
  toLower : String → String
  /-- The error the validator reports for a field that fails its tag, given the
  field name and the offending value. -/
  fieldError : String → String → GoError
  /-- The `hostname_port` check of the validator. -/
  hostnamePort : String → Bool

/-! ## zapcore.Level and zap.AtomicLevel -/

namespace zapcore

/-- The type `zapcore.Level` (an `int8`). -/
abbrev Level := Int

def DebugLevel : Level := -1
def InfoLevel : Level := 0
def WarnLevel : Level := 1
def ErrorLevel : Level := 2
def DPanicLevel : Level := 3
def PanicLevel : Level := 4
def FatalLevel : Level := 5

/-- The unexported `(*Level).unmarshalText`: `some l` when the text is one of
the spellings of the switch (the Go code stores `l` and returns true), `none`
when it is not (the Go code returns false and stores nothing). -/
def unmarshalText (text : String) : Option Level :=
  if text = "debug" ∨ text = "DEBUG" then some DebugLevel
  else if text = "info" ∨ text = "INFO" ∨ text = "" then some InfoLevel
  else if text = "warn" ∨ text = "WARN" then some WarnLevel
  else if text = "error" ∨ text = "ERROR" then some ErrorLevel
  else if text = "dpanic" ∨ text = "DPANIC" then some DPanicLevel
  else if text = "panic" ∨ text = "PANIC" then some PanicLevel
  else if text = "fatal" ∨ text = "FATAL" then some FatalLevel
  else none

/-- The method `(*Level).UnmarshalText`: try the text as it is, then lowered. -/
def UnmarshalText (X : Externals) (text : String) : Except GoError Level :=
  match unmarshalText text with
  | some l => Except.ok l
  | none =>
    match unmarshalText (X.toLower text) with
    | some l => Except.ok l
    | none => Except.error (GoError.plain ("unrecognized level: " ++ X.quote text))

/-- The method `Level.CapitalString`. -/
def CapitalString (l : Level) : String :=
  if l = DebugLevel then "DEBUG"
  else if l = InfoLevel then "INFO"
  else if l = WarnLevel then "WARN"
  else if l = ErrorLevel then "ERROR"
  else if l = DPanicLevel then "DPANIC"
  else if l = PanicLevel then "PANIC"
  else if l = FatalLevel then "FATAL"
  else "LEVEL(" ++ toString l ++ ")"

/-- The method `Level.Enabled`: a record of level `lvl` passes threshold `l`. -/
def Enabled (l : Level) (lvl : Level) : Bool := decide (l ≤ lvl)

end zapcore

/-! ## The world: package variables and observable effects -/

/-- The encoder `logger.Init` selects. -/
inductive Encoder where
  | json
  | console
  deriving DecidableEq, Repr

/-- The level encoder `logger.Init` selects. -/
inductive LevelEncoder where
  | capital
  | capitalColor
  deriving DecidableEq, Repr

/-- The clock of a logger: `zapcore.DefaultClock` or one injected by a caller. -/
inductive Clock where
  | DefaultClock
  | injected (id : Nat)
  deriving DecidableEq, Repr

/-- The logger `logger.Init` builds: a single core writing to stdout, filtered
by the package-level atomic level (read at every record, so it is not copied
here). -/
structure ZapLogger where
  encoder : Encoder
  encodeLevel : LevelEncoder
  clock : Clock
  name : String
  deriving DecidableEq, Repr

/-- Effects of the program that the claims observe, in the order they happen. -/
inductive Event where
  /-- A call to `zap.L().Sync()`. -/
  | loggerSync
  /-- A line printed through the standard `log` package. -/
  | stdlogPrintf (text : String)
  /-- A record written by a zap logger that passed the level filter: logger
  name, level, message and fields. -/
  | logRecord (logger : String) (lvl : zapcore.Level) (msg : String)
      (fields : List (String × String))
  /-- A mark left by `serverdebug.New` when it has built a `Server`. -/
  | serverBuilt (addr : String)
  /-- The call `s.srv.ListenAndServe()` on the given address. -/
  | listenAndServe (addr : String)
  /-- The call `s.srv.Shutdown(ctx)`, with the timeout of `ctx` in nanoseconds. -/
  | shutdown (timeout : Nat)
  deriving DecidableEq, Repr

/-- Mutable process state: the package variable `level` of package `logger`
(the cell of the `zap.AtomicLevel`), the global zap logger (`none` is the no-op
logger zap starts with), and the trace of effects so far, oldest first. -/
structure World where
  level : zapcore.Level
  globalLogger : Option ZapLogger
  trace : List Event
  deriving DecidableEq, Repr

/-- The method `(*AtomicLevel).UnmarshalText` applied to the package variable
`level`: the cell is written only when the text parses. -/
def AtomicLevel_UnmarshalText (X : Externals) (text : String) (w : World) :
    Option GoError × World :=
  match zapcore.UnmarshalText X text with
  | Except.error err => (some err, w)
  | Except.ok l => (none, { w with level := l })

/-! ## package logger -/

namespace logger

/-- The struct `Options` of package `logger`. -/
structure Options where
  level : String
  productionMode : Bool
  clock : Clock
  deriving DecidableEq, Repr

/-- The package variable `defaultOptions`. -/
def defaultOptions : Options :=
  { level := "", productionMode := false, clock := Clock.DefaultClock }

/-- Modelled from the spec: the generated constructor `NewOptions` with the
option `WithProductionMode` (logger_options.gen.go) is not among the sources.
Spec 4.2: the options are a mandatory `level`, `productionMode`, and a clock
that defaults to the wall clock; the defaults come from `defaultOptions`. -/
def NewOptions (level : String) (productionMode : Bool) : Options :=
  { defaultOptions with level := level, productionMode := productionMode }

/-- Modelled from the spec: the generated method `Options.Validate`
(logger_options.gen.go) is not among the sources. Spec 4.2: `level` is
mandatory and one of the four enum tokens, validation fails if it is absent or
invalid. The struct tag on the field in logger.go says the same:
`validate:"required,oneof=debug info warn error"`. -/
def Options.Validate (X : Externals) (opts : Options) : Option GoError :=
  if opts.level ≠ "" ∧ opts.level ∈ ["debug", "info", "warn", "error"] then none
  else some (X.fieldError "level" opts.level)

/-- The function `Init`. -/
def Init (X : Externals) (opts : Options) (w : World) : Option GoError × World :=
  match opts.Validate X with
  | some err => (some (Errorf_v "validate options: " err), w)
  | none =>
    match AtomicLevel_UnmarshalText X opts.level w with
    | (some err, w1) => (some (Errorf_v "invalid log level: " err), w1)
    | (none, w1) =>
      let l : ZapLogger :=
        if opts.productionMode then
          { encoder := Encoder.json, encodeLevel := LevelEncoder.capital,
            clock := opts.clock, name := "" }
        else
          { encoder := Encoder.console, encodeLevel := LevelEncoder.capitalColor,
            clock := opts.clock, name := "" }
      (none, { w1 with globalLogger := some l })

/-- The function `MustInit`: a `some err` in the result is the value it panics
with. -/
def MustInit (X : Externals) (opts : Options) (w : World) : Option GoError × World :=
  match Init X opts w with
  | (some err, w1) => (some err, w1)
  | (none, w1) => (none, w1)

/-- The function `Sync`; `syncResult` is what `zap.L().Sync()` returns. -/
def Sync (syncResult : Option GoError) (w : World) : World :=
  let w1 := { w with trace := w.trace ++ [Event.loggerSync] }
  match syncResult with
  | some err =>
    if !errorsIs err ENOTTY then
      { w1 with trace := w1.trace ++ [Event.stdlogPrintf ("cannot sync logger: " ++ err.Error)] }
    else w1
  | none => w1

/-- The function `GetAtomicLevel` followed by `.Level()`. -/
def GetAtomicLevel (w : World) : zapcore.Level := w.level

end logger

/-! ## package config -/

namespace config

/-- The section `[global]` of the configuration. -/
structure GlobalConfig where
  Env : String
  deriving DecidableEq, Repr

/-- The section `[log]` of the configuration. -/
structure LogConfig where
  Level : String
  deriving DecidableEq, Repr

/-- The section `[servers.debug]` of the configuration. -/
structure DebugServerConfig where
  Addr : String
  deriving DecidableEq, Repr

/-- The section `[servers]` of the configuration. -/
structure ServersConfig where
  Debug : DebugServerConfig
  deriving DecidableEq, Repr

/-- Modelled from the spec: the declaration of the type `Config` (config.go) is
not among the sources. Spec 6 names the fields this program consumes:
`global.env`, `log.level` and `servers.debug.addr`, all strings; main.go reads
them as `cfg.Global.Env`, `cfg.Log.Level` and `cfg.Servers.Debug.Addr`. -/
structure Config where
  Global : GlobalConfig
  Log : LogConfig
  Servers : ServersConfig
  deriving DecidableEq, Repr

/-- The zero value `Config{}`. -/
def Config.zero : Config :=
  { Global := { Env := "" }, Log := { Level := "" }, Servers := { Debug := { Addr := "" } } }

/-- What the outside world answers to the four calls of `ParseAndValidate`. -/
structure Files where
  /-- The call `os.Open(filename)`: a file handle or an error. -/
  Open : String → Except GoError Nat
  /-- The call `io.ReadAll(file)`: the bytes read or an error. -/
  ReadAll : Nat → Except GoError String
  /-- The call `toml.Decode(string(b), &cfg)` on a zero `cfg`: the contents of
  `cfg` after the call (possibly filled in part) and the error. -/
  Decode : String → Config × Option GoError
  /-- The call `validator.Validator.Struct(cfg)`. -/
  Struct : Config → Option GoError

/-- The function `ParseAndValidate`. -/
def ParseAndValidate (fs : Files) (filename : String) : Config × Option GoError :=
  match fs.Open filename with
  | Except.error err => (Config.zero, some err)
  | Except.ok file =>
    match fs.ReadAll file with
    | Except.error err => (Config.zero, some err)
    | Except.ok b =>
      match fs.Decode b with
      | (_, some err) => (Config.zero, some err)
      | (cfg, none) =>
        match fs.Struct cfg with
        | some err => (Config.zero, some err)
        | none => (cfg, none)

end config

/-! ## package serverdebug -/

namespace serverdebug

/-- The constant `time.Second`, in nanoseconds. -/
def Second : Nat := 1000000000

/-- The constant `readHeaderTimeout`. -/
def readHeaderTimeout : Nat := Second

/-- The constant `shutdownTimeout`. -/
def shutdownTimeout : Nat := 3 * Second

/-- The struct `Options` of package `serverdebug`. -/
structure Options where
  addr : String
  deriving DecidableEq, Repr

/-- Modelled from the spec: the generated constructor `NewOptions`
(server_options.gen.go) is not among the sources. Spec 3: the server
configuration is a value object holding the listen address; `addr` is the one
mandatory field of `Options`. -/
def NewOptions (addr : String) : Options := { addr := addr }

/-- Modelled from the spec: the generated method `Options.Validate`
(server_options.gen.go) is not among the sources. Spec 4.3: the address must
parse as host:port. The struct tag on the field in server.go says the same:
`validate:"required,hostname_port"`. -/
def Options.Validate (X : Externals) (opts : Options) : Option GoError :=
  if opts.addr ≠ "" ∧ X.hostnamePort opts.addr = true then none
  else some (X.fieldError "addr" opts.addr)

/-- The struct `page`. -/
structure page where
  Path : String
  Description : String
  deriving DecidableEq, Repr

/-- The struct `indexPage`. -/
structure indexPage where
  pages : List page
  deriving DecidableEq, Repr

/-- The function `newIndexPage`. -/
def newIndexPage : indexPage := { pages := [] }

/-- The method `(*indexPage).addPage`; the updated receiver is the result. -/
def indexPage.addPage (i : indexPage) (path : String) (description : String) : indexPage :=
  { i with pages := i.pages ++ [{ Path := path, Description := description }] }

/-- The anonymous struct `indexPage.handler` hands to the template. -/
structure IndexData where
  Pages : List page
  LogLevel : String
  deriving DecidableEq, Repr

/-- One `<li>` of the rendered index: the link target, the link text and the
text of the `<span>`. -/
structure ListItem where
  href : String
  text : String
  description : String
  deriving DecidableEq, Repr

/-- One `<option>` of the rendered level form. -/
structure SelectOption where
  value : String
  label : String
  selected : Bool
  deriving DecidableEq, Repr

/-- The parts of the rendered index page that depend on the data: the list
items in document order and the four options of the level form. The fixed
markup, the script and the escaping of the values are left out. -/
structure IndexView where
  items : List ListItem
  options : List SelectOption
  deriving DecidableEq, Repr

/-- The template of `indexPage.handler`, executed on its data: one list item
per element of `.Pages`, and the four options, each selected when `.LogLevel`
equals its capital name. -/
def indexTemplate (data : IndexData) : IndexView :=
  { items := data.Pages.map
      (fun p => { href := p.Path, text := p.Path, description := p.Description }),
    options :=
      [ { value := "debug", label := "DEBUG", selected := data.LogLevel == "DEBUG" },
        { value := "info", label := "INFO", selected := data.LogLevel == "INFO" },
        { value := "warn", label := "WARN", selected := data.LogLevel == "WARN" },
        { value := "error", label := "ERROR", selected := data.LogLevel == "ERROR" } ] }

/-- The data `indexPage.handler` passes to `Execute`. -/
def indexPage.handlerData (i : indexPage) (w : World) : IndexData :=
  { Pages := i.pages,
    LogLevel := zapcore.CapitalString (logger.GetAtomicLevel w) }

/-- The method `indexPage.handler`: the page written to the response. -/
def indexPage.handler (i : indexPage) (w : World) : IndexView :=
  indexTemplate (i.handlerData w)

/-- The handlers `New` registers. The index handler is the method value
`index.handler`, which holds the index page as it is when the route is
registered. -/
inductive Handler where
  | index (i : indexPage)
  | Version
  | AtomicLevelServeHTTP
  | pprofIndex
  | pprofProfile
  | pprofTrace
  | pprofCmdline
  deriving DecidableEq, Repr

/-- A route of the echo router. -/
structure Route where
  method : String
  path : String
  handler : Handler
  deriving DecidableEq, Repr

/-- The echo instance `New` builds: middleware in order of `Use`, routes in
order of registration. -/
structure Echo where
  middleware : List String
  routes : List Route
  deriving DecidableEq, Repr

/-- The `http.Server` literal of `New`. -/
structure HttpServer where
  Addr : String
  Handler : Echo
  ReadHeaderTimeout : Nat
  deriving DecidableEq, Repr

/-- The struct `Server`; `lg` is `none` for the no-op logger. -/
structure Server where
  lg : Option ZapLogger
  srv : HttpServer
  deriving DecidableEq, Repr

/-- The call `zap.L().Named(name)`. -/
def Named (l : Option ZapLogger) (name : String) : Option ZapLogger :=
  l.map (fun z => { z with name := if z.name = "" then name else z.name ++ "." ++ name })

/-- The function `New`. Building the server has no effect on the world; the
trace gets a mark so that later events can be placed after the construction. -/
def New (X : Externals) (opts : Options) (w : World) :
    (Option Server × Option GoError) × World :=
  match opts.Validate X with
  | some err => ((none, some (Errorf_w "validate options: " err)), w)
  | none =>
    let lg := Named w.globalLogger "server-debug"
    let index := newIndexPage
    let index := index.addPage "/version" "Get build information"
    let index := index.addPage "/debug/pprof/" "Get std profiler"
    let index := index.addPage "/debug/pprof/profile?seconds=30" "Take half-min profile"
    let e : Echo :=
      { middleware := ["Recover", "Logger"],
        routes :=
          [ { method := "GET", path := "/", handler := Handler.index index },
            { method := "GET", path := "/version", handler := Handler.Version },
            { method := "GET", path := "/log/level", handler := Handler.AtomicLevelServeHTTP },
            { method := "PUT", path := "/log/level", handler := Handler.AtomicLevelServeHTTP },
            { method := "GET", path := "/debug/pprof/*", handler := Handler.pprofIndex },
            { method := "GET", path := "/debug/pprof/profile", handler := Handler.pprofProfile },
            { method := "GET", path := "/debug/pprof/trace", handler := Handler.pprofTrace },
            { method := "GET", path := "/debug/pprof/cmdline", handler := Handler.pprofCmdline } ] }
    let s : Server :=
      { lg := lg,
        srv := { Addr := opts.addr, Handler := e, ReadHeaderTimeout := readHeaderTimeout } }
    ((some s, none), { w with trace := w.trace ++ [Event.serverBuilt opts.addr] })

/-- The page the server answers to `GET /`: the handler of the route with
method GET and path "/" run in the given world, when that handler is the index
handler. -/
def Server.serveIndex (s : Server) (w : World) : Option IndexView :=
  s.srv.Handler.routes.findSome? (fun r =>
    if r.method = "GET" ∧ r.path = "/" then
      match r.handler with
      | Handler.index i => some (i.handler w)
      | _ => none
    else none)

/-- The call `lg.Info(msg, fields...)`: the record is written when the logger
is not the no-op logger and the atomic level, read now, enables `InfoLevel`. -/
def Info (lg : Option ZapLogger) (msg : String) (fields : List (String × String))
    (w : World) : World :=
  match lg with
  | none => w
  | some z =>
    if zapcore.Enabled w.level zapcore.InfoLevel then
      { w with trace := w.trace ++ [Event.logRecord z.name zapcore.InfoLevel msg fields] }
    else w

/-- What the listener does while nobody shuts the server down. -/
inductive Listen where
  /-- The call `ListenAndServe` returns by itself with this result (a bind or
  accept failure). -/
  | fails (result : Option GoError)
  /-- The call `ListenAndServe` serves until the server is shut down, and then
  returns `http.ErrServerClosed`. -/
  | serves
  deriving DecidableEq, Repr

/-- The outside world of one call of `Server.Run`. -/
structure RunScenario where
  /-- Whether the context handed to `Run` is cancelled at some time. -/
  cancelled : Bool
  /-- What the listener does. -/
  listen : Listen
  /-- What `s.srv.Shutdown(ctx)` returns when it is called: nil, the error of
  the timeout context when the grace period runs out, or an error of closing
  the listeners. -/
  shutdownResult : Option GoError
  /-- When the listener fails by itself and the context is cancelled as well:
  whether the serving task returns before the shutdown task. -/
  serveFirst : Bool
  deriving DecidableEq, Repr

/-- The second task of `Server.Run` after its log call: the result of
`ListenAndServe` mapped to the result of the task. -/
def serveTask (listenResult : Option GoError) : Option GoError :=
  match listenResult with
  | some err =>
    if !errorsIs err ErrServerClosed then some (Errorf_v "listen and serve: " err)
    else none
  | none => none

/-- The first task of `Server.Run` once `ctx.Done()` has fired: it returns what
`Shutdown` returns. -/
def shutdownTask (shutdownResult : Option GoError) : Option GoError := shutdownResult

/-- The method `(*errgroup.Group).Wait` once every task has returned: the first
non-nil result, the results given in the order the tasks returned. -/
def errgroup_Wait (results : List (Option GoError)) : Option GoError :=
  results.findSome? id

/-- The method `(*Server).Run`. The outer `none` means that `Run` never
returns: the shutdown task waits on `ctx.Done()`, which fires when the context
of the caller is cancelled or a task of the group returns an error. The trace
shows the events of the serving task before the one of the shutdown task. -/
def Server.Run (s : Server) (scen : RunScenario) (w : World) :
    Option (Option GoError) × World :=
  let w1 := Info s.lg "listen and serve" [("addr", s.srv.Addr)] w
  let w2 := { w1 with trace := w1.trace ++ [Event.listenAndServe s.srv.Addr] }
  let w3 := { w2 with trace := w2.trace ++ [Event.shutdown shutdownTimeout] }
  match scen.listen with
  | Listen.serves =>
    if scen.cancelled then
      (some (errgroup_Wait [serveTask (some ErrServerClosed), shutdownTask scen.shutdownResult]), w3)
    else (none, w2)
  | Listen.fails result =>
    let b := serveTask result
    if b.isSome then
      if scen.cancelled && !scen.serveFirst then
        (some (errgroup_Wait [shutdownTask scen.shutdownResult, b]), w3)
      else
        (some (errgroup_Wait [b, shutdownTask scen.shutdownResult]), w3)
    else if scen.cancelled then
      (some (errgroup_Wait [b, shutdownTask scen.shutdownResult]), w3)
    else (none, w2)

end serverdebug

/-! ## package main -/

namespace chatservice

/-- The outside world of one call of `run`. -/
structure RunEnv where
  /-- The value of the flag `-config`. -/
  configPath : String
  /-- The answers to the calls of `config.ParseAndValidate`. -/
  files : config.Files
  /-- What `zap.L().Sync()` returns. -/
  syncResult : Option GoError
  /-- The world of the debug server; its `cancelled` is the arrival of SIGINT
  or SIGTERM, the only way the context of `run` is cancelled while the server
  runs. -/
  scenario : serverdebug.RunScenario

/-- How a call of `run` ends. -/
inductive Outcome where
  /-- The call returns this error (`none` is nil). -/
  | returned (err : Option GoError)
  /-- The call panics with this value. -/
  | panicked (err : GoError)
  /-- The call never returns. -/
  | blocked
  deriving DecidableEq, Repr

/-- The function `run`. -/
def run (X : Externals) (env : RunEnv) (w : World) : Outcome × World :=
  match config.ParseAndValidate env.files env.configPath with
  | (_, some err) =>
    (Outcome.returned (some (GoError.plain
      ("parse and validate config " ++ X.quote env.configPath ++ ": " ++ err.Error))), w)
  | (cfg, none) =>
    match logger.MustInit X
        (logger.NewOptions cfg.Log.Level (cfg.Global.Env == "prod")) w with
    | (some p, w1) => (Outcome.panicked p, w1)
    | (none, w1) =>
      let w2 := logger.Sync env.syncResult w1
      match serverdebug.New X (serverdebug.NewOptions cfg.Servers.Debug.Addr) w2 with
      | ((_, some err), w3) =>
        (Outcome.returned (some (Errorf_v "init debug server: " err)), w3)
      | ((none, none), w3) =>
        (Outcome.panicked
          (GoError.plain "runtime error: invalid memory address or nil pointer dereference"), w3)
      | ((some srvDebug, none), w3) =>
        match srvDebug.Run env.scenario w3 with
        | (none, w4) => (Outcome.blocked, w4)
        | (some result, w4) =>
          match serverdebug.errgroup_Wait [result] with
          | some err =>
            if !errorsIs err contextCanceled then
              (Outcome.returned (some (Errorf_v "wait app stop: " err)), w4)
            else (Outcome.returned none, w4)
          | none => (Outcome.returned none, w4)

/-- The function `main`: the exit code of the process, `none` when `run` never
returns. `log.Fatalf` exits with 1; an unrecovered panic exits with 2. -/
def main (X : Externals) (env : RunEnv) (w : World) : Option Nat :=
  match (run X env w).1 with
  | Outcome.returned none => some 0
  | Outcome.returned (some _) => some 1
  | Outcome.panicked _ => some 2
  | Outcome.blocked => none

end chatservice

/-! ## A sample environment -/

/-- A sample of the library functions, used to evaluate the program on
concrete inputs: quoting as `%q` does on texts that need no escaping,
lowering of ASCII letters, and a `hostname_port` check that asks for a colon
followed by a non-empty run of digits. -/
def sampleExternals : Externals :=
  { quote := fun s => "\"" ++ s ++ "\"",
    toLower := fun s => String.mk (s.data.map Char.toLower),
    fieldError := fun field value =>
      GoError.plain ("field " ++ field ++ " did not pass the test: " ++ value),
    hostnamePort := fun s =>
      match s.data.reverse.span Char.isDigit with
      | (d, ':' :: _) => !d.isEmpty
      | _ => false }

/-- The world at process start: the atomic level is `InfoLevel`
(`zap.NewAtomicLevel`), the global logger is the no-op logger, nothing has
happened. -/
def World.start : World := { level := zapcore.InfoLevel, globalLogger := none, trace := [] }

/-- A sample configuration: development mode, level info, the debug server on
"127.0.0.1:8079". -/
def sampleConfig : config.Config :=
  { Global := { Env := "dev" }, Log := { Level := "info" },
    Servers := { Debug := { Addr := "127.0.0.1:8079" } } }

/-- A sample file system: only "configs/config.toml" exists, and it decodes to
`sampleConfig`, which validates. -/
def sampleFiles : config.Files :=
  { Open := fun name =>
      if name = "configs/config.toml" then Except.ok 3
      else Except.error (GoError.wrap ("open " ++ name ++ ": no such file or directory")
        (GoError.sentinel "syscall.ENOENT" "no such file or directory")),
    ReadAll := fun _ => Except.ok "[global] [log] [servers.debug]",
    Decode := fun _ => (sampleConfig, none),
    Struct := fun _ => none }

/-- A sample run of the process: the default config path, stdout is not a
terminal (so `Sync` reports `ENOTTY`), and the given world of the server. -/
def sampleEnv (scen : serverdebug.RunScenario) : chatservice.RunEnv :=
  { configPath := "configs/config.toml",
    files := sampleFiles,
    syncResult := some (GoError.wrap "sync /dev/stdout: inappropriate ioctl for device" ENOTTY),
    scenario := scen }

/-- The server serves until a signal cancels the context, and `Shutdown`
finishes within the grace period. -/
def signalShutdown : serverdebug.RunScenario :=
  { cancelled := true, listen := serverdebug.Listen.serves, shutdownResult := none,
    serveFirst := true }

/-- The server serves until a signal cancels the context, and `Shutdown` gives
up when the grace period is over: it returns the error of its timeout context. -/
def signalShutdownTimeout : serverdebug.RunScenario :=
  { cancelled := true, listen := serverdebug.Listen.serves,
    shutdownResult := some contextDeadlineExceeded, serveFirst := true }

/-- The listener cannot bind its address, no signal arrives. -/
def bindFailure : serverdebug.RunScenario :=
  { cancelled := false,
    listen := serverdebug.Listen.fails
      (some (GoError.wrap "listen tcp 127.0.0.1:8079: bind: address already in use"
        (GoError.sentinel "syscall.EADDRINUSE" "address already in use"))),
    shutdownResult := none, serveFirst := true }

/-! ## Helper lemmas -/

theorem logger_Validate_fails (X : Externals) (opts : logger.Options)
    (h : opts.level ∉ ["debug", "info", "warn", "error"]) :
    opts.Validate X = some (X.fieldError "level" opts.level) := by
  unfold logger.Options.Validate
  rw [if_neg]
  exact fun hh => h hh.2

theorem logger_Validate_passes (X : Externals) (opts : logger.Options)
    (h : opts.level ∈ ["debug", "info", "warn", "error"]) :
    opts.Validate X = none := by
  unfold logger.Options.Validate
  rw [if_pos]
  refine ⟨?_, h⟩
  intro h0
  rw [h0] at h
  revert h
  decide

/-! ## Package logger: setting the level through `Init` -/

/-- C1: for every level token that is not one of debug, info, warn, error, and
for every prior world (so every prior value of the atomic level), `Init`
returns an error and the atomic level read afterwards through
`GetAtomicLevel` is the one from before the call; indeed nothing of the world
has changed. -/
theorem C1_Init_invalid_token_keeps_level (X : Externals) (opts : logger.Options) (w : World)
    (h : opts.level ∉ ["debug", "info", "warn", "error"]) :
    (∃ err, (logger.Init X opts w).1 = some err) ∧
    logger.GetAtomicLevel (logger.Init X opts w).2 = logger.GetAtomicLevel w ∧
    (logger.Init X opts w).2 = w := by
  have hv := logger_Validate_fails X opts h
  simp [logger.Init, hv]

/-- Witness of C1 on the token "DEBUG1" with the atomic level at `WarnLevel`. -/
theorem C1_Init_invalid_token_keeps_level_witness :
    (∃ err, (logger.Init sampleExternals (logger.NewOptions "DEBUG1" true)
        { World.start with level := zapcore.WarnLevel }).1 = some err) ∧
    logger.GetAtomicLevel (logger.Init sampleExternals (logger.NewOptions "DEBUG1" true)
        { World.start with level := zapcore.WarnLevel }).2 = zapcore.WarnLevel :=
  have h := C1_Init_invalid_token_keeps_level sampleExternals (logger.NewOptions "DEBUG1" true)
    { World.start with level := zapcore.WarnLevel } (by decide)
  ⟨h.1, h.2.1⟩

/-- C2 as stated fails: the token "DEBUG" spells debug in upper case, and
`Init` called with it returns an error (the options do not validate: the
error is "validate options: " followed by the validator's message) and leaves
the atomic level at its prior value, here `InfoLevel`. -/
theorem C2_Init_uppercase_token_rejected :
    (logger.Init sampleExternals (logger.NewOptions "DEBUG" false) World.start).1 =
      some (Errorf_v "validate options: " (sampleExternals.fieldError "level" "DEBUG")) ∧
    zapcore.CapitalString
      (logger.GetAtomicLevel
        (logger.Init sampleExternals (logger.NewOptions "DEBUG" false) World.start).2) =
      "INFO" := by
  decide

/-- C2 amended: for every token that is exactly one of the lower-case spellings
debug, info, warn, error, `Init` succeeds and the atomic level read afterwards
through `GetAtomicLevel().Level().CapitalString()` is the capitalised form of
the token. -/
theorem C2_Init_valid_token_sets_level (X : Externals) (opts : logger.Options) (w : World)
    (canonical : String)
    (h : (opts.level, canonical) ∈
      [("debug", "DEBUG"), ("info", "INFO"), ("warn", "WARN"), ("error", "ERROR")]) :
    (logger.Init X opts w).1 = none ∧
    zapcore.CapitalString (logger.GetAtomicLevel (logger.Init X opts w).2) = canonical := by
  have hmem : opts.level ∈ ["debug", "info", "warn", "error"] := by
    simp only [List.mem_cons, Prod.mk.injEq, List.mem_singleton, List.not_mem_nil, or_false]
      at h ⊢
    rcases h with h | h | h | h <;> simp [h.1]
  have hv := logger_Validate_passes X opts hmem
  simp only [List.mem_cons, Prod.mk.injEq, List.mem_singleton, List.not_mem_nil, or_false] at h
  rcases h with ⟨h1, h2⟩ | ⟨h1, h2⟩ | ⟨h1, h2⟩ | ⟨h1, h2⟩ <;>
    subst h2 <;>
    simp [logger.Init, hv, h1, AtomicLevel_UnmarshalText, zapcore.UnmarshalText,
      zapcore.unmarshalText, logger.GetAtomicLevel] <;>
    decide

/-- Witness of C2 amended on the token "warn", the prior level being
`InfoLevel`. -/
theorem C2_Init_valid_token_sets_level_witness :
    (logger.Init sampleExternals (logger.NewOptions "warn" false) World.start).1 = none ∧
    zapcore.CapitalString (logger.GetAtomicLevel
      (logger.Init sampleExternals (logger.NewOptions "warn" false) World.start).2) = "WARN" :=
  C2_Init_valid_token_sets_level sampleExternals (logger.NewOptions "warn" false) World.start
    "WARN" (by decide)

/-! ## Package serverdebug: construction -/

theorem New_of_Validate_some (X : Externals) (opts : serverdebug.Options) (w : World)
    (err : GoError) (h : opts.Validate X = some err) :
    serverdebug.New X opts w = ((none, some (Errorf_w "validate options: " err)), w) := by
  simp [serverdebug.New, h]

theorem New_of_Validate_none (X : Externals) (opts : serverdebug.Options) (w : World)
    (h : opts.Validate X = none) :
    ∃ s, serverdebug.New X opts w =
      ((some s, none), { w with trace := w.trace ++ [Event.serverBuilt opts.addr] }) ∧
      s.srv.Addr = opts.addr ∧
      s.lg = serverdebug.Named w.globalLogger "server-debug" ∧
      s.srv.Handler.routes.map serverdebug.Route.path =
        ["/", "/version", "/log/level", "/log/level", "/debug/pprof/*",
         "/debug/pprof/profile", "/debug/pprof/trace", "/debug/pprof/cmdline"] ∧
      ∀ w2, s.serveIndex w2 = some (serverdebug.indexPage.handler
        { pages :=
            [ { Path := "/version", Description := "Get build information" },
              { Path := "/debug/pprof/", Description := "Get std profiler" },
              { Path := "/debug/pprof/profile?seconds=30",
                Description := "Take half-min profile" } ] } w2) := by
  simp only [serverdebug.New, h]
  exact ⟨_, rfl, rfl, rfl, rfl, fun _ => rfl⟩

/-- C3: for every address that fails option validation, with error `err`,
`New` returns a nil server together with a non-nil error that wraps `err`: an
error with an `Unwrap` method, whose message is "validate options: " followed
by the message of `err` and whose `Unwrap` gives `err` itself, different from
`err`; the world is as before. The empty address and an address that is not
host:port do fail validation; `New` returns a non-nil server with a nil error
exactly when validation passes; and `New` never calls `ListenAndServe`: every
such call in the trace after `New` was there before. -/
theorem C3_New_fails_iff_validation_fails (X : Externals) (opts : serverdebug.Options)
    (w : World) :
    (∀ err, opts.Validate X = some err →
      (serverdebug.New X opts w).1 =
        (none, some (GoError.wrap ("validate options: " ++ err.Error) err)) ∧
      (∀ e, (serverdebug.New X opts w).1.2 = some e →
        e.Error = "validate options: " ++ err.Error ∧ e.Unwrap = some err ∧ e ≠ err) ∧
      (serverdebug.New X opts w).2 = w) ∧
    ((opts.addr = "" ∨ X.hostnamePort opts.addr = false) → ∃ err, opts.Validate X = some err) ∧
    ((∃ s, (serverdebug.New X opts w).1 = (some s, none)) ↔ opts.Validate X = none) ∧
    (∀ addr, Event.listenAndServe addr ∈ (serverdebug.New X opts w).2.trace →
      Event.listenAndServe addr ∈ w.trace) := by
  refine ⟨?_, ?_, ?_, ?_⟩
  · intro err h
    rw [New_of_Validate_some X opts w err h]
    refine ⟨rfl, ?_, rfl⟩
    intro e he
    have he2 : e = GoError.wrap ("validate options: " ++ err.Error) err :=
      (Option.some.inj he).symm
    subst he2
    refine ⟨rfl, rfl, ?_⟩
    intro hne
    have hsz := congrArg sizeOf hne
    simp at hsz
  · intro h
    refine ⟨X.fieldError "addr" opts.addr, ?_⟩
    unfold serverdebug.Options.Validate
    rw [if_neg]
    rintro ⟨h1, h2⟩
    rcases h with h | h
    · exact h1 h
    · rw [h] at h2
      exact Bool.noConfusion h2
  · constructor
    · rintro ⟨s, hs⟩
      cases hv : opts.Validate X with
      | none => rfl
      | some err =>
        rw [New_of_Validate_some X opts w err hv] at hs
        simp at hs
    · intro hv
      obtain ⟨s, hs, _⟩ := New_of_Validate_none X opts w hv
      exact ⟨s, by rw [hs]⟩
  · intro addr h
    cases hv : opts.Validate X with
    | none =>
      obtain ⟨s, hs, _⟩ := New_of_Validate_none X opts w hv
      rw [hs] at h
      simpa using h
    | some err =>
      rw [New_of_Validate_some X opts w err hv] at h
      exact h

/-- Witness of C3 on the address "localhost", which has no port. -/
theorem C3_New_fails_iff_validation_fails_witness :
    (serverdebug.New sampleExternals (serverdebug.NewOptions "localhost") World.start).1 =
      (none, some (GoError.wrap
        ("validate options: " ++ (sampleExternals.fieldError "addr" "localhost").Error)
        (sampleExternals.fieldError "addr" "localhost"))) :=
  ((C3_New_fails_iff_validation_fails sampleExternals (serverdebug.NewOptions "localhost")
    World.start).1 (sampleExternals.fieldError "addr" "localhost") (by decide)).1

/-! ## Package serverdebug: the index page -/

/-- C7 as stated fails: the server built for "127.0.0.1:8079" has the routes
/log/level, /debug/pprof/*, /debug/pprof/profile, /debug/pprof/trace and
/debug/pprof/cmdline on its router, and none of these paths is an entry of
the page list its index page renders. -/
theorem C7_index_omits_registered_routes :
    ∃ s view,
      (serverdebug.New sampleExternals (serverdebug.NewOptions "127.0.0.1:8079")
        World.start).1 = (some s, none) ∧
      s.serveIndex World.start = some view ∧
      ∀ p ∈ ["/log/level", "/debug/pprof/*", "/debug/pprof/profile", "/debug/pprof/trace",
          "/debug/pprof/cmdline"],
        p ∈ s.srv.Handler.routes.map serverdebug.Route.path ∧
        p ∉ view.items.map serverdebug.ListItem.href :=
  ⟨_, _, rfl, rfl, by decide⟩

/-- C7 amended: the index page served at GET / lists the pages registered
through `addPage`, in order: /version, /debug/pprof/ and
/debug/pprof/profile?seconds=30; of the route paths on the router only
/version is an entry of that list; the form has the options DEBUG, INFO, WARN
and ERROR, and an option is marked selected exactly when its capital name
equals the `CapitalString` of the atomic level at the time of the request. -/
theorem C7_index_lists_added_pages (X : Externals) (opts : serverdebug.Options)
    (w w1 w2 : World) (s : serverdebug.Server)
    (h : serverdebug.New X opts w = ((some s, none), w1)) :
    ∃ view, s.serveIndex w2 = some view ∧
      view.items.map serverdebug.ListItem.href =
        ["/version", "/debug/pprof/", "/debug/pprof/profile?seconds=30"] ∧
      (∀ r ∈ s.srv.Handler.routes,
        r.path ∈ view.items.map serverdebug.ListItem.href ↔ r.path = "/version") ∧
      view.options.map serverdebug.SelectOption.label = ["DEBUG", "INFO", "WARN", "ERROR"] ∧
      (∀ o ∈ view.options,
        o.selected = true ↔ o.label = zapcore.CapitalString (logger.GetAtomicLevel w2)) := by
  cases hv : opts.Validate X with
  | some err =>
    rw [New_of_Validate_some X opts w err hv] at h
    simp at h
  | none =>
    obtain ⟨s0, hs, _, _, hroutes, hidx⟩ := New_of_Validate_none X opts w hv
    rw [hs] at h
    have hs0 : s0 = s := by
      have := congrArg (fun r => r.1.1) h
      simpa using this
    subst hs0
    refine ⟨_, hidx w2, rfl, ?_, rfl, ?_⟩
    · intro r hr
      have hp : r.path ∈ s0.srv.Handler.routes.map serverdebug.Route.path :=
        List.mem_map_of_mem _ hr
      rw [hroutes] at hp
      simp only [List.mem_cons, List.mem_singleton, List.not_mem_nil, or_false] at hp
      rcases hp with hp | hp | hp | hp | hp | hp | hp | hp <;> rw [hp] <;>
        simp [serverdebug.indexPage.handler, serverdebug.indexTemplate,
          serverdebug.indexPage.handlerData]
    · intro o ho
      simp only [serverdebug.indexPage.handler, serverdebug.indexTemplate,
        serverdebug.indexPage.handlerData, List.mem_cons, List.mem_singleton,
        List.not_mem_nil, or_false] at ho
      rcases ho with ho | ho | ho | ho <;> subst ho <;> simp only [beq_iff_eq] <;>
        exact eq_comm

/-- Witness of C7 amended: the server built for "127.0.0.1:8079", asked for its
index page while the atomic level is `WarnLevel`. -/
theorem C7_index_lists_added_pages_witness :
    ∃ view, Option.bind
        (serverdebug.New sampleExternals (serverdebug.NewOptions "127.0.0.1:8079")
          World.start).1.1
        (fun s => s.serveIndex { World.start with level := zapcore.WarnLevel }) = some view ∧
      view.items.map serverdebug.ListItem.href =
        ["/version", "/debug/pprof/", "/debug/pprof/profile?seconds=30"] ∧
      view.options.map serverdebug.SelectOption.selected = [false, false, true, false] := by
  obtain ⟨view, h1, h2, _, _, _⟩ :=
    C7_index_lists_added_pages sampleExternals (serverdebug.NewOptions "127.0.0.1:8079")
      World.start _ { World.start with level := zapcore.WarnLevel } _ rfl
  refine ⟨view, h1, h2, ?_⟩
  have h3 : view = serverdebug.indexPage.handler
      { pages :=
          [ { Path := "/version", Description := "Get build information" },
            { Path := "/debug/pprof/", Description := "Get std profiler" },
            { Path := "/debug/pprof/profile?seconds=30",
              Description := "Take half-min profile" } ] }
      { World.start with level := zapcore.WarnLevel } := by
    have h4 : some view = some _ := h1.symm.trans rfl
    exact Option.some.inj h4
  rw [h3]
  decide

/-! ## Package serverdebug: `Run` -/

theorem serveTask_ErrServerClosed : serverdebug.serveTask (some ErrServerClosed) = none := by
  decide

theorem Run_serves_cancelled (s : serverdebug.Server) (scen : serverdebug.RunScenario)
    (w : World) (hc : scen.cancelled = true) (hl : scen.listen = serverdebug.Listen.serves) :
    (s.Run scen w).1 = some scen.shutdownResult := by
  unfold serverdebug.Server.Run
  simp only [hl, hc, if_true, serveTask_ErrServerClosed, serverdebug.shutdownTask,
    serverdebug.errgroup_Wait]
  cases scen.shutdownResult <;> rfl

/-- C6: for every error `e` the listener returns: if `e` is
`http.ErrServerClosed` (by the test `errors.Is` of the code) the serving task
returns nil; otherwise it returns the error whose message is "listen and
serve: " followed by the message of `e`, and this error is the result of `Run`
when the shutdown task returns nil, whichever task returns first; and when
the context is cancelled and `Shutdown` succeeds, `Run` returns nil, the
serving task returning nil then (the listener, shut down, returns
`http.ErrServerClosed`). -/
theorem C6_Run_result_from_listener (e : GoError) (s : serverdebug.Server) (w : World)
    (cancelled serveFirst : Bool) :
    (errorsIs e ErrServerClosed = true → serverdebug.serveTask (some e) = none) ∧
    serverdebug.serveTask (some ErrServerClosed) = none ∧
    (errorsIs e ErrServerClosed = false →
      serverdebug.serveTask (some e) = some (GoError.plain ("listen and serve: " ++ e.Error)) ∧
      (s.Run { cancelled := cancelled, listen := serverdebug.Listen.fails (some e),
               shutdownResult := none, serveFirst := serveFirst } w).1 =
        some (some (GoError.plain ("listen and serve: " ++ e.Error)))) ∧
    (∀ scen : serverdebug.RunScenario, scen.cancelled = true → scen.shutdownResult = none →
      (scen.listen = serverdebug.Listen.serves ∨
        ∃ r, scen.listen = serverdebug.Listen.fails r ∧ serverdebug.serveTask r = none) →
      (s.Run scen w).1 = some none) := by
  refine ⟨?_, serveTask_ErrServerClosed, ?_, ?_⟩
  · intro h
    simp [serverdebug.serveTask, h]
  · intro h
    have hs : serverdebug.serveTask (some e) =
        some (GoError.plain ("listen and serve: " ++ e.Error)) := by
      simp [serverdebug.serveTask, h, Errorf_v]
    refine ⟨hs, ?_⟩
    unfold serverdebug.Server.Run
    simp only [hs, Option.isSome_some, if_true, serverdebug.shutdownTask,
      serverdebug.errgroup_Wait]
    cases cancelled <;> cases serveFirst <;> rfl
  · rintro scen hc hs (hl | ⟨r, hl, hr⟩)
    · rw [Run_serves_cancelled s scen w hc hl, hs]
    · unfold serverdebug.Server.Run
      simp only [hl, hr, hc, hs, serverdebug.shutdownTask, serverdebug.errgroup_Wait]
      rfl

/-- Witness of C6: the listener cannot bind its address ("address already in
use"), the context is not cancelled from outside, `Shutdown` returns nil. -/
theorem C6_Run_result_from_listener_witness :
    serverdebug.serveTask
        (some (GoError.wrap "listen tcp 127.0.0.1:8079: bind: address already in use"
          (GoError.sentinel "syscall.EADDRINUSE" "address already in use"))) =
      some (GoError.plain
        ("listen and serve: " ++ "listen tcp 127.0.0.1:8079: bind: address already in use")) ∧
    (serverdebug.Server.Run
        { lg := none,
          srv := { Addr := "127.0.0.1:8079", Handler := { middleware := [], routes := [] },
                   ReadHeaderTimeout := serverdebug.readHeaderTimeout } }
        bindFailure World.start).1 =
      some (some (GoError.plain
        ("listen and serve: " ++ "listen tcp 127.0.0.1:8079: bind: address already in use"))) :=
  (C6_Run_result_from_listener
    (GoError.wrap "listen tcp 127.0.0.1:8079: bind: address already in use"
      (GoError.sentinel "syscall.EADDRINUSE" "address already in use"))
    { lg := none,
      srv := { Addr := "127.0.0.1:8079", Handler := { middleware := [], routes := [] },
               ReadHeaderTimeout := serverdebug.readHeaderTimeout } }
    World.start false true).2.2.1 (by decide)

/-! ## Package config and package main -/

theorem run_of_config_error (X : Externals) (env : chatservice.RunEnv) (w : World)
    (cfg : config.Config) (e : GoError)
    (h : config.ParseAndValidate env.files env.configPath = (cfg, some e)) :
    chatservice.run X env w =
      (chatservice.Outcome.returned (some (GoError.plain
        ("parse and validate config " ++ X.quote env.configPath ++ ": " ++ e.Error))), w) := by
  simp [chatservice.run, h]

theorem run_of_setup (X : Externals) (env : chatservice.RunEnv) (w : World)
    (cfg : config.Config) (w1 w3 : World) (srvDebug : serverdebug.Server)
    (hcfg : config.ParseAndValidate env.files env.configPath = (cfg, none))
    (hlog : logger.MustInit X
      (logger.NewOptions cfg.Log.Level (cfg.Global.Env == "prod")) w = (none, w1))
    (hsrv : serverdebug.New X (serverdebug.NewOptions cfg.Servers.Debug.Addr)
      (logger.Sync env.syncResult w1) = ((some srvDebug, none), w3)) :
    chatservice.run X env w =
      match srvDebug.Run env.scenario w3 with
      | (none, w4) => (chatservice.Outcome.blocked, w4)
      | (some result, w4) =>
        match serverdebug.errgroup_Wait [result] with
        | some err =>
          if !errorsIs err contextCanceled then
            (chatservice.Outcome.returned (some (Errorf_v "wait app stop: " err)), w4)
          else (chatservice.Outcome.returned none, w4)
        | none => (chatservice.Outcome.returned none, w4) := by
  simp only [chatservice.run, hcfg, hlog, hsrv]

theorem run_of_Run_result (X : Externals) (env : chatservice.RunEnv) (w : World)
    (cfg : config.Config) (w1 w3 w4 : World) (srvDebug : serverdebug.Server)
    (result : Option GoError)
    (hcfg : config.ParseAndValidate env.files env.configPath = (cfg, none))
    (hlog : logger.MustInit X
      (logger.NewOptions cfg.Log.Level (cfg.Global.Env == "prod")) w = (none, w1))
    (hsrv : serverdebug.New X (serverdebug.NewOptions cfg.Servers.Debug.Addr)
      (logger.Sync env.syncResult w1) = ((some srvDebug, none), w3))
    (hrun : srvDebug.Run env.scenario w3 = (some result, w4)) :
    (result = none → (chatservice.run X env w).1 = chatservice.Outcome.returned none) ∧
    (∀ err, result = some err → errorsIs err contextCanceled = true →
      (chatservice.run X env w).1 = chatservice.Outcome.returned none) ∧
    (∀ err, result = some err → errorsIs err contextCanceled = false →
      (chatservice.run X env w).1 =
        chatservice.Outcome.returned (some (Errorf_v "wait app stop: " err))) := by
  rw [run_of_setup X env w cfg w1 w3 srvDebug hcfg hlog hsrv, hrun]
  refine ⟨?_, ?_, ?_⟩
  · intro h
    subst h
    rfl
  · intro err h hc
    subst h
    simp [serverdebug.errgroup_Wait, hc]
  · intro err h hc
    subst h
    simp [serverdebug.errgroup_Wait, hc]

theorem errgroup_Wait_single (result : Option GoError) :
    serverdebug.errgroup_Wait [result] = result := by
  cases result <;> rfl

theorem main_of_run (X : Externals) (env : chatservice.RunEnv) (w : World) :
    (∀ o, (chatservice.run X env w).1 = chatservice.Outcome.returned o →
      chatservice.main X env w = some (if o = none then 0 else 1)) := by
  intro o h
  unfold chatservice.main
  rw [h]
  cases o <;> rfl

/-- C9: for every config path and every failure of `ParseAndValidate` (at
open, read, TOML decode or validation), `ParseAndValidate` returns the zero
`Config` with that error; and whenever it returns an error, `run` returns one
error whose message is "parse and validate config ", the quoted path, ": " and
the message of the underlying error, the process exits with 1, and the world
is as before the call: the logger is not initialised and no debug server is
built or run. -/
theorem C9_config_failure_aborts_startup (X : Externals) (env : chatservice.RunEnv)
    (w : World) :
    (∀ e, env.files.Open env.configPath = Except.error e →
      config.ParseAndValidate env.files env.configPath = (config.Config.zero, some e)) ∧
    (∀ file e, env.files.Open env.configPath = Except.ok file →
      env.files.ReadAll file = Except.error e →
      config.ParseAndValidate env.files env.configPath = (config.Config.zero, some e)) ∧
    (∀ file b cfg e, env.files.Open env.configPath = Except.ok file →
      env.files.ReadAll file = Except.ok b → env.files.Decode b = (cfg, some e) →
      config.ParseAndValidate env.files env.configPath = (config.Config.zero, some e)) ∧
    (∀ file b cfg e, env.files.Open env.configPath = Except.ok file →
      env.files.ReadAll file = Except.ok b → env.files.Decode b = (cfg, none) →
      env.files.Struct cfg = some e →
      config.ParseAndValidate env.files env.configPath = (config.Config.zero, some e)) ∧
    (∀ cfg e, config.ParseAndValidate env.files env.configPath = (cfg, some e) →
      cfg = config.Config.zero ∧
      chatservice.run X env w =
        (chatservice.Outcome.returned (some (GoError.plain
          ("parse and validate config " ++ X.quote env.configPath ++ ": " ++ e.Error))), w) ∧
      chatservice.main X env w = some 1) := by
  refine ⟨?_, ?_, ?_, ?_, ?_⟩
  · intro e h
    simp [config.ParseAndValidate, h]
  · intro file e h1 h2
    simp [config.ParseAndValidate, h1, h2]
  · intro file b cfg e h1 h2 h3
    simp [config.ParseAndValidate, h1, h2, h3]
  · intro file b cfg e h1 h2 h3 h4
    simp [config.ParseAndValidate, h1, h2, h3, h4]
  · intro cfg e h
    have hrun := run_of_config_error X env w cfg e h
    refine ⟨?_, hrun, ?_⟩
    · have h0 := h
      unfold config.ParseAndValidate at h0
      split at h0
      · exact (congrArg Prod.fst h0).symm
      · split at h0
        · exact (congrArg Prod.fst h0).symm
        · split at h0
          · exact (congrArg Prod.fst h0).symm
          · split at h0
            · exact (congrArg Prod.fst h0).symm
            · have := congrArg Prod.snd h0
              simp at this
    · have := main_of_run X env w _ (congrArg Prod.fst hrun)
      simpa using this

/-- Witness of C9: the config path "missing.toml" names no file, so the open
fails; nothing has happened when `run` returns. -/
theorem C9_config_failure_aborts_startup_witness :
    chatservice.run sampleExternals
        { sampleEnv signalShutdown with configPath := "missing.toml" } World.start =
      (chatservice.Outcome.returned (some (GoError.plain
        ("parse and validate config " ++ "\"missing.toml\"" ++ ": " ++
          "open missing.toml: no such file or directory"))), World.start) :=
  ((C9_config_failure_aborts_startup sampleExternals
    { sampleEnv signalShutdown with configPath := "missing.toml" } World.start).2.2.2.2
    config.Config.zero
    (GoError.wrap "open missing.toml: no such file or directory"
      (GoError.sentinel "syscall.ENOENT" "no such file or directory"))
    (by decide)).2.1

/-- C4: once configuration, logger and debug server are set up, for every
result with which the server's `Run` (the only task of the group) returns:
`run` returns nil if and only if the `Wait` result is nil or is
`context.Canceled` by `errors.Is`; for every other `Wait` result `run` returns
the error "wait app stop: ..."; the process exits with 0 in the first case and
with 1 in the second. In particular, when a signal cancels the context while
the listener serves and `Shutdown` returns nil within the grace period, `run`
returns nil and the process exits with 0. -/
theorem C4_run_nil_iff_Wait_nil_or_canceled (X : Externals) (env : chatservice.RunEnv)
    (w : World) (cfg : config.Config) (w1 w3 : World) (srvDebug : serverdebug.Server)
    (hcfg : config.ParseAndValidate env.files env.configPath = (cfg, none))
    (hlog : logger.MustInit X
      (logger.NewOptions cfg.Log.Level (cfg.Global.Env == "prod")) w = (none, w1))
    (hsrv : serverdebug.New X (serverdebug.NewOptions cfg.Servers.Debug.Addr)
      (logger.Sync env.syncResult w1) = ((some srvDebug, none), w3)) :
    (∀ result w4, srvDebug.Run env.scenario w3 = (some result, w4) →
      ((chatservice.run X env w).1 = chatservice.Outcome.returned none ↔
        (serverdebug.errgroup_Wait [result] = none ∨
          ∃ e, serverdebug.errgroup_Wait [result] = some e ∧
            errorsIs e contextCanceled = true)) ∧
      (∀ e, serverdebug.errgroup_Wait [result] = some e →
        errorsIs e contextCanceled = false →
        (chatservice.run X env w).1 =
          chatservice.Outcome.returned (some (Errorf_v "wait app stop: " e)) ∧
        chatservice.main X env w = some 1) ∧
      (chatservice.main X env w = some 0 ↔
        (chatservice.run X env w).1 = chatservice.Outcome.returned none)) ∧
    (env.scenario.cancelled = true → env.scenario.listen = serverdebug.Listen.serves →
      env.scenario.shutdownResult = none →
      (chatservice.run X env w).1 = chatservice.Outcome.returned none ∧
      chatservice.main X env w = some 0) := by
  have hmain0 : (chatservice.run X env w).1 = chatservice.Outcome.returned none →
      chatservice.main X env w = some 0 := by
    intro h
    have := main_of_run X env w none h
    simpa using this
  have hmain1 : ∀ e, (chatservice.run X env w).1 = chatservice.Outcome.returned (some e) →
      chatservice.main X env w = some 1 := by
    intro e h
    have := main_of_run X env w (some e) h
    simpa using this
  constructor
  · intro result w4 hrun
    obtain ⟨hnil, hcan, herr⟩ :=
      run_of_Run_result X env w cfg w1 w3 w4 srvDebug result hcfg hlog hsrv hrun
    rw [errgroup_Wait_single]
    have hiff : (chatservice.run X env w).1 = chatservice.Outcome.returned none ↔
        (result = none ∨ ∃ e, result = some e ∧ errorsIs e contextCanceled = true) := by
      constructor
      · intro h
        cases result with
        | none => exact Or.inl rfl
        | some e =>
          right
          refine ⟨e, rfl, ?_⟩
          cases hc : errorsIs e contextCanceled with
          | true => rfl
          | false =>
            rw [herr e rfl hc] at h
            simp at h
      · rintro (h | ⟨e, h, hc⟩)
        · exact hnil h
        · exact hcan e h hc
    refine ⟨hiff, ?_, ?_⟩
    · intro e h hc
      exact ⟨herr e h hc, hmain1 _ (herr e h hc)⟩
    · constructor
      · intro h
        cases result with
        | none => exact hnil rfl
        | some e =>
          cases hc : errorsIs e contextCanceled with
          | true => exact hcan e rfl hc
          | false =>
            rw [hmain1 _ (herr e rfl hc)] at h
            simp at h
      · exact hmain0
  · intro hc hl hs
    have h1 := Run_serves_cancelled srvDebug env.scenario w3 hc hl
    rw [hs] at h1
    have hrun : srvDebug.Run env.scenario w3 = (some none, (srvDebug.Run env.scenario w3).2) :=
      Prod.ext h1 rfl
    have h2 := (run_of_Run_result X env w cfg w1 w3 _ srvDebug none hcfg hlog hsrv hrun).1 rfl
    exact ⟨h2, hmain0 h2⟩

/-- Witness of C4: the sample configuration, a signal while the server serves,
and a shutdown within the grace period. -/
theorem C4_run_nil_iff_Wait_nil_or_canceled_witness :
    (chatservice.run sampleExternals (sampleEnv signalShutdown) World.start).1 =
      chatservice.Outcome.returned none ∧
    chatservice.main sampleExternals (sampleEnv signalShutdown) World.start = some 0 :=
  (C4_run_nil_iff_Wait_nil_or_canceled sampleExternals (sampleEnv signalShutdown) World.start
    sampleConfig _ _ _ rfl rfl rfl).2 rfl rfl rfl

/-- C5 as stated fails: with the sample configuration, a signal while the
server serves and a `Shutdown` that runs into its deadline, `Run` returns
`context.DeadlineExceeded`, `run` returns the error "wait app stop: context
deadline exceeded" and the process exits with 1. -/
theorem C5_shutdown_timeout_fails_process :
    (chatservice.run sampleExternals (sampleEnv signalShutdownTimeout) World.start).1 =
      chatservice.Outcome.returned
        (some (GoError.plain "wait app stop: context deadline exceeded")) ∧
    chatservice.main sampleExternals (sampleEnv signalShutdownTimeout) World.start = some 1 := by
  decide

/-- C5 amended: when the grace period (3 seconds, the timeout `Shutdown` is
called with) is exceeded after cancellation, that is when `Shutdown` returns
`context.DeadlineExceeded` after the context was cancelled while the listener
served, `Run` returns that error, the supervisor
treats it as a failure (it is not `context.Canceled`), `run` returns the error
"wait app stop: context deadline exceeded" and the process exits with 1. -/
theorem C5_shutdown_timeout_propagates (X : Externals) (env : chatservice.RunEnv)
    (w : World) (cfg : config.Config) (w1 w3 : World) (srvDebug : serverdebug.Server)
    (hcfg : config.ParseAndValidate env.files env.configPath = (cfg, none))
    (hlog : logger.MustInit X
      (logger.NewOptions cfg.Log.Level (cfg.Global.Env == "prod")) w = (none, w1))
    (hsrv : serverdebug.New X (serverdebug.NewOptions cfg.Servers.Debug.Addr)
      (logger.Sync env.syncResult w1) = ((some srvDebug, none), w3))
    (hc : env.scenario.cancelled = true)
    (hl : env.scenario.listen = serverdebug.Listen.serves)
    (hs : env.scenario.shutdownResult = some contextDeadlineExceeded) :
    Event.shutdown (3 * serverdebug.Second) ∈ (srvDebug.Run env.scenario w3).2.trace ∧
    (srvDebug.Run env.scenario w3).1 = some (some contextDeadlineExceeded) ∧
    errorsIs contextDeadlineExceeded contextCanceled = false ∧
    (chatservice.run X env w).1 =
      chatservice.Outcome.returned
        (some (GoError.plain "wait app stop: context deadline exceeded")) ∧
    chatservice.main X env w = some 1 := by
  have h1 := Run_serves_cancelled srvDebug env.scenario w3 hc hl
  rw [hs] at h1
  have hrun : srvDebug.Run env.scenario w3 =
      (some (some contextDeadlineExceeded), (srvDebug.Run env.scenario w3).2) :=
    Prod.ext h1 rfl
  have hne : errorsIs contextDeadlineExceeded contextCanceled = false := by decide
  have h2 := (run_of_Run_result X env w cfg w1 w3 _ srvDebug _ hcfg hlog hsrv hrun).2.2
    contextDeadlineExceeded rfl hne
  refine ⟨?_, h1, hne, h2, ?_⟩
  · unfold serverdebug.Server.Run
    simp [hl, hc, serverdebug.shutdownTimeout]
  · have := main_of_run X env w _ h2
    simpa using this

/-- Witness of C5 amended on the sample configuration. -/
theorem C5_shutdown_timeout_propagates_witness :
    chatservice.main sampleExternals (sampleEnv signalShutdownTimeout) World.start = some 1 :=
  (C5_shutdown_timeout_propagates sampleExternals (sampleEnv signalShutdownTimeout)
    World.start sampleConfig _ _ _ rfl rfl rfl rfl rfl rfl).2.2.2.2

/-- C10 fails on the code: with the sample configuration (level info) and a
signal-triggered shutdown, `run` returns nil and the only `Sync` is the first
event of the run; the construction of the server, the log record "listen and
serve", the listening and the shutdown all come after it, and nothing is
flushed at exit. -/
theorem C10_Sync_precedes_server_run :
    chatservice.run sampleExternals (sampleEnv signalShutdown) World.start =
      (chatservice.Outcome.returned none,
       { level := zapcore.InfoLevel,
         globalLogger := some
           { encoder := Encoder.console, encodeLevel := LevelEncoder.capitalColor,
             clock := Clock.DefaultClock, name := "" },
         trace :=
           [ Event.loggerSync,
             Event.serverBuilt "127.0.0.1:8079",
             Event.logRecord "server-debug" zapcore.InfoLevel "listen and serve"
               [("addr", "127.0.0.1:8079")],
             Event.listenAndServe "127.0.0.1:8079",
             Event.shutdown 3000000000 ] }) := by
  decide

end NinjaChat
